import Mathlib

/-!
Shallow embedding of the CheckMe extension-analysis platform.

The repository under verification ships the React frontend
(`src/frontend/checkme-frontend`): verdict metadata (`utils/verdict.js`),
mock data (`utils/mocks.js`), the score gauge (`components/common/ScoreGauge.jsx`),
the report view (`pages/ReportDetail.jsx`), the dashboard
(`pages/Dashboard.jsx`), the submission form (`pages/NewAnalysis.jsx`) and the
report list (`pages/ReportsList.jsx`).  The backend engine (orchestrator,
scoring reducer, analyzers) is referenced by the spec but its code is not in
the repository; where a claim depends on it the corresponding definition is
modelled from the spec and carries a doc comment saying so.

JavaScript numbers are embedded as rationals (ℚ); nullable values as Option.
-/

namespace Checkme

/-! ### String primitives

JavaScript string operations are embedded over the character list of a
`String` (core `String.toLower`, `splitOn`, `startsWith`, `drop` are
position-based and do not reduce in the kernel; these list-based versions
compute the same functions and evaluate on concrete inputs). -/

/-- Predicate `startsWithChars l p`: the list `l` starts with the pattern `p`. -/
def startsWithChars : List Char → List Char → Bool
  | _, [] => true
  | [], _ :: _ => false
  | a :: as, b :: bs => a = b && startsWithChars as bs

/-- JavaScript `s.startsWith(p)`. -/
def strStartsWith (s p : String) : Bool :=
  startsWithChars s.data p.data

/-- JavaScript `s.toLowerCase()` (character-wise lowering). -/
def jsToLower (s : String) : String :=
  ⟨s.data.map Char.toLower⟩

/-- Split a character list on a separator character; adjacent separators
yield empty pieces, like JavaScript `split`. -/
def splitCharsOn (sep : Char) : List Char → List (List Char)
  | [] => [[]]
  | c :: t =>
      let r := splitCharsOn sep t
      if c = sep then [] :: r
      else
        match r with
        | [] => [[c]]
        | h :: t2 => (c :: h) :: t2

/-- JavaScript `s.split(sep)` for a one-character separator. -/
def strSplitOn (sep : Char) (s : String) : List String :=
  (splitCharsOn sep s.data).map (fun l => (⟨l⟩ : String))

/-- JavaScript `s.slice(n)` / Lean `String.drop`. -/
def strDrop (s : String) (n : Nat) : String :=
  ⟨s.data.drop n⟩

/-! ### Verdicts — `src/frontend/checkme-frontend/src/utils/verdict.js` -/

/-- The four verdict values of the system. -/
inductive Verdict
  | safe
  | needs_review
  | high_risk
  | block
deriving DecidableEq, Repr

/-- The metadata record attached to a verdict (label and CSS class),
as in the `VERDICT_META` table of `utils/verdict.js`. -/
structure VerdictMeta where
  label : String
  className : String
deriving DecidableEq, Repr

def safeMeta : VerdictMeta := ⟨"SAFE", "safe"⟩

def needsReviewMeta : VerdictMeta := ⟨"NEEDS REVIEW", "needs-review"⟩

def highRiskMeta : VerdictMeta := ⟨"HIGH RISK", "high-risk"⟩

def blockMeta : VerdictMeta := ⟨"BLOCK / MALICIOUS", "block"⟩

/-- Result of the JavaScript property read `VERDICT_META[key]` on the
object literal of `utils/verdict.js`: an own property (one of the four
metadata records), a property inherited from `Object.prototype` through
the prototype chain (a truthy object that is not a metadata record), or
`undefined`. -/
inductive PropRead
  | own (m : VerdictMeta)
  | inherited
  | undefinedRead
deriving DecidableEq, Repr

/-- The JavaScript property read `VERDICT_META[key]` of `utils/verdict.js`.
The four own keys return their record.  Lookup on a plain object literal
traverses the prototype chain, so among all-lower-case keys (the only ones
`getVerdictMeta` can produce) `constructor` resolves to the inherited
`Object.prototype.constructor` function and `__proto__` to the inherited
prototype object — both truthy non-record objects; every other key reads
`undefined`.  (The remaining `Object.prototype` property names such as
`hasOwnProperty`, `valueOf`, `toString`, `__defineGetter__` contain an
upper-case letter and are unreachable after lower-casing.) -/
def VERDICT_META (key : String) : PropRead :=
  if key = "safe" then .own safeMeta
  else if key = "needs_review" then .own needsReviewMeta
  else if key = "high_risk" then .own highRiskMeta
  else if key = "block" then .own blockMeta
  else if key = "constructor" then .inherited
  else if key = "__proto__" then .inherited
  else .undefinedRead

/-- A value `getVerdictMeta` can return: a verdict metadata record, or the
truthy object inherited from the prototype chain (whose `label` and
`className` properties read `undefined`). -/
inductive MetaResult
  | meta (m : VerdictMeta)
  | inheritedObject
deriving DecidableEq, Repr

/-- Function `getVerdictMeta` of `utils/verdict.js`.  The JavaScript
argument may be `null`/`undefined` (embedded as `none`) or a string;
`!verdict` is true for `null`, `undefined` and the empty string; the
lookup key is the lower-cased string and the result is
`VERDICT_META[key] ?? VERDICT_META.safe`, where `??` fires only on
`undefined` (or null) — an inherited truthy object passes through
unreplaced. -/
def getVerdictMeta (verdict : Option String) : MetaResult :=
  match verdict with
  | none => .meta safeMeta
  | some s =>
      if s = "" then .meta safeMeta
      else
        match VERDICT_META (jsToLower s) with
        | .own m => .meta m
        | .inherited => .inheritedObject
        | .undefinedRead => .meta safeMeta

/-- Function `formatVerdictLabel` of `utils/verdict.js`:
`getVerdictMeta(verdict).label`; reading `label` off the inherited
prototype object yields `undefined` (`none`). -/
def formatVerdictLabel (verdict : Option String) : Option String :=
  match getVerdictMeta verdict with
  | .meta m => some m.label
  | .inheritedObject => none

/-! ### Score gauge — `ScoreGauge.jsx` (src/unnamed/part_007) -/

/-- Value `normalized` in `ScoreGauge`: `Math.min(Math.max(score, 0), 50)`. -/
def gaugeNormalized (score : ℚ) : ℚ := min (max score 0) 50

/-- Value `percentage` in `ScoreGauge`: `(normalized / 50) * 100`. -/
def gaugePercentage (score : ℚ) : ℚ := gaugeNormalized score / 50 * 100

/-! ### Mock data — `src/frontend/checkme-frontend/src/utils/mocks.js` -/

/-- The analysis summary shape used by the list/dashboard pages:
`{ id, status, final_score, verdict }` with nullable score and verdict. -/
structure AnalysisSummary where
  id : String
  status : String
  final_score : Option ℚ
  verdict : Option String
deriving DecidableEq, Repr

/-- Constant `sampleAnalyses` of `utils/mocks.js` (timestamps omitted: they are
`new Date().toISOString()` at load time and no claim concerns them). -/
def sampleAnalyses : List AnalysisSummary :=
  [ ⟨"mock-safe", "completed", some (17/2 : ℚ), some "safe"⟩,
    ⟨"mock-review", "completed", some (223/10 : ℚ), some "needs_review"⟩,
    ⟨"mock-in-progress", "in_progress", none, none⟩ ]

/-! ### Verdict classification — spec §4.9 (backend absent from src/) -/

/-- Modelled from the spec: the verdict threshold table of §4.9 is applied in
the backend scoring reducer, which is not part of the repository sources.
"Verdict classification is a fixed, non-overlapping threshold table:
`[0,10]→safe`, `[11,25]→needs_review`, `[26,40]→high_risk`, `[41,50]→block`,
applied to the clamped final_score; boundaries are inclusive on the lower
bound and exclusive on the next tier’s lower bound." -/
def classifyVerdict (s : ℚ) : Verdict :=
  if s < 11 then .safe
  else if s < 26 then .needs_review
  else if s < 41 then .high_risk
  else .block

/-- The string name a verdict serializes to in reports. -/
def verdictName : Verdict → String
  | .safe => "safe"
  | .needs_review => "needs_review"
  | .high_risk => "high_risk"
  | .block => "block"

/-! ### Scoring reducer — spec §4.9 (backend absent from src/) -/

/-- Modelled from the spec: one module as seen by the §4.9 scoring reducer,
which is not part of the repository sources.  `weight` is the static base
weight, `active` is true exactly when the module is enabled and completed
with status `ok` (a disabled module or one ending in `failed`/`skipped` is
inactive), `subScore` is the module’s normalized sub-score in [0,10]. -/
structure ModuleOutcome where
  weight : ℚ
  active : Bool
  subScore : ℚ
deriving DecidableEq, Repr

/-- Modelled from the spec: the total base weight of the active modules,
the denominator of the §4.9 proportional redistribution. -/
def activeWeightSum (ms : List ModuleOutcome) : ℚ :=
  ((ms.filter (·.active)).map (·.weight)).sum

/-- Modelled from the spec: §4.9 redistributes the weight of each
disabled/failed/skipped module proportionally across the remaining completed
modules, i.e. each active module’s effective weight is its base weight
divided by the total active base weight. -/
def redistributedWeight (ms : List ModuleOutcome) (m : ModuleOutcome) : ℚ :=
  m.weight / activeWeightSum ms

/-- Modelled from the spec: the list of effective weights of the active
modules after redistribution. -/
def activeWeights (ms : List ModuleOutcome) : List ℚ :=
  (ms.filter (·.active)).map (redistributedWeight ms)

/-- Modelled from the spec: the §4.9 weighted sum of active module
sub-scores under the redistributed weights (a value in [0,10] when the
sub-scores are). -/
def weightedScore (ms : List ModuleOutcome) : ℚ :=
  ((ms.filter (·.active)).map (fun m => redistributedWeight ms m * m.subScore)).sum

/-- Modelled from the spec: the §4.9 final score — the weighted sum rescaled
from [0,10] onto [0,50], plus the net of the bonus/malus deltas
(`deltaSum`), clamped to [0,50]. -/
def finalScore (ms : List ModuleOutcome) (deltaSum : ℚ) : ℚ :=
  min (max (weightedScore ms * 5 + deltaSum) 0) 50

/-! ### Module status and AI module — spec §3/§4.7 (backend absent from src/) -/

/-- The per-module status values of §3. -/
inductive ModuleStatus
  | ok
  | failed
  | skipped
deriving DecidableEq, Repr

/-- An attack scenario of an `AIInsight` (§3): title, description,
likelihood, impact. -/
structure AttackScenario where
  title : String
  description : String
  likelihood : String
  impact : String
deriving DecidableEq, Repr

/-- An `AIInsight` (§3): summary text, ordered attack scenarios, ordered
recommendations. -/
structure AIInsight where
  summary : String
  attack_scenarios : List AttackScenario
  recommendations : List String
deriving DecidableEq, Repr

/-- A response of the AI backing service as the §4.7 module sees it:
either nothing (service unavailable) or a payload that may or may not be
well-formed. -/
structure AIServiceResponse where
  wellFormed : Bool
  insight : AIInsight
deriving DecidableEq, Repr

/-- The §4.7 AI module’s outcome: status, reducer weight, and the message
the report surfaces. -/
structure AIModuleOutcome where
  status : ModuleStatus
  weight : ℚ
  message : String
deriving DecidableEq, Repr

/-- Modelled from the spec: the §4.7 AI Insight module’s failure handling —
the module itself is not part of the repository sources.  "If the backing
service is unavailable or returns malformed output, the module status is
`skipped`, weight zero, and the report surfaces "AI analysis unavailable"
rather than failing the job."  `baseWeight` is the module’s configured
weight when it succeeds. -/
def aiModuleOutcome (baseWeight : ℚ) (response : Option AIServiceResponse) :
    AIModuleOutcome :=
  match response with
  | none => ⟨.skipped, 0, "AI analysis unavailable"⟩
  | some r =>
      if r.wellFormed then ⟨.ok, baseWeight, r.insight.summary⟩
      else ⟨.skipped, 0, "AI analysis unavailable"⟩

/-! ### Report view AI tab — `ReportDetail.jsx` (src/unnamed/part_008) -/

/-- The AI payload as the report view reads it
(`analysis?.results?.ai?.data ?? {}`): every field may be absent. -/
structure AIPayload where
  summary : Option String
  attack_scenarios : Option (List AttackScenario)
  recommendations : Option (List String)
deriving DecidableEq, Repr

/-- The summary text rendered by the AI tab:
`ai.summary` with the fixed French fallback text. -/
def aiSummaryDisplay (ai : AIPayload) : String :=
  ai.summary.getD "Analyse IA non disponible."

/-- The attack-scenario list rendered by the AI tab:
`ai.attack_scenarios ?? []`. -/
def aiScenariosDisplay (ai : AIPayload) : List AttackScenario :=
  ai.attack_scenarios.getD []

/-- The recommendation list rendered by the AI tab:
`ai.recommendations ?? []`. -/
def aiRecommendationsDisplay (ai : AIPayload) : List String :=
  ai.recommendations.getD []

/-! ### Analysis submission — `NewAnalysis.jsx` and `api/analysis.js`
(src/unnamed/part_000) -/

/-- The three provenance modes offered by the mode radio options of
`NewAnalysis.jsx` (`url`, `file`, `combined`). -/
inductive AnalysisMode
  | url
  | file
  | combined
deriving DecidableEq, Repr

/-- Flag `isStoreMode` of `NewAnalysis.jsx`: `mode === "url" || mode === "combined"`. -/
def isStoreMode (m : AnalysisMode) : Bool :=
  m = .url ∨ m = .combined

/-- Flag `isFileMode` of `NewAnalysis.jsx`: `mode === "file" || mode === "combined"`. -/
def isFileMode (m : AnalysisMode) : Bool :=
  m = .file ∨ m = .combined

/-- The job-creation request body assembled by `createAnalysisJob` of
`api/analysis.js`: `mode` always, `url`/`store_type`/`file` only when
truthy (the JS guards each `formData.append` with `if (url)` etc.).
The file is embedded by an opaque identifier string. -/
structure JobRequest where
  mode : AnalysisMode
  url : Option String
  store_type : Option String
  file : Option String
deriving DecidableEq, Repr

/-- Function `createAnalysisJob` of `api/analysis.js` (form-data assembly only; the
HTTP post itself is I/O outside the embedding). -/
def createAnalysisJob (mode : AnalysisMode) (url : String)
    (storeType : Option String) (file : Option String) : JobRequest :=
  { mode := mode
    url := if url = "" then none else some url
    store_type :=
      match storeType with
      | none => none
      | some st => if st = "" then none else some st
    file := file }

/-- Function `handleSubmit` of `NewAnalysis.jsx`: validates the mode’s required
inputs and either records an error (no request sent) or sends the
job-creation request.  `url` is the text of the URL field (empty string
when blank, i.e. falsy), `file` is the selected package file if any. -/
def handleSubmit (mode : AnalysisMode) (url : String) (storeType : String)
    (file : Option String) : Except String JobRequest :=
  if isStoreMode mode ∧ url = "" then
    .error "Veuillez fournir l’URL de la boutique."
  else if isFileMode mode ∧ file = none then
    .error "Veuillez joindre un fichier .crx ou .xpi."
  else
    .ok (createAnalysisJob mode url
      (if isStoreMode mode then some storeType else none) file)

/-! ### Report view payload extraction — `ReportDetail.jsx`
(src/unnamed/part_008, lines 89–94 and the tab contents) -/

/-- A Finding as rendered by the code-behavior tab (§3 field names). -/
structure Finding where
  message : String
  category : String
  file : String
  severity : String
deriving DecidableEq, Repr

/-- A detected library as rendered by the CVE tab. -/
structure LibraryEntry where
  name : String
  version : String
  file : String
deriving DecidableEq, Repr

/-- A CVEEntry as rendered by the CVE tab (§3 field names). -/
structure CVEEntry where
  id : String
  library : String
  version : String
  description : String
  severity : String
deriving DecidableEq, Repr

/-- The metadata module payload as the report view reads it. -/
structure MetadataData where
  name : Option String
  version : Option String
deriving DecidableEq, Repr

/-- The permissions module payload as the report view reads it:
`permissions`, `host_permissions`, `risk_distribution`. -/
structure PermissionsData where
  permissions : Option (List String)
  host_permissions : Option (List String)
  risk_distribution : Option (List (String × Nat))
deriving DecidableEq, Repr

/-- The code-behavior module result as the report view reads it — note the
view takes `analysis?.results?.code_behavior ?? {}` directly (line 91), not
`.data`, so `findings` is read off the module-result object itself. -/
structure CodeBehaviorResult where
  findings : Option (List Finding)
deriving DecidableEq, Repr

/-- The network module payload as the report view reads it. -/
structure NetworkData where
  total_urls : Option Nat
  external_urls : Option Nat
  http_urls : Option Nat
  unique_domains : Option Nat
  tracking_domains : Option Nat
  domains : Option (List String)
deriving DecidableEq, Repr

/-- The CVE module payload as the report view reads it:
`cves`, `libraries_found`. -/
structure CVEData where
  cves : Option (List CVEEntry)
  libraries_found : Option (List LibraryEntry)
deriving DecidableEq, Repr

/-- A module entry of `analysis.results`: the payload sits under `.data`,
itself possibly absent. -/
structure ModuleEntry (α : Type) where
  data : Option α
deriving DecidableEq, Repr

/-- The `analysis.results` map as `ReportDetail.jsx` dereferences it.
`code_behavior` is the raw module result (no `.data` step in line 91). -/
structure ResultsMap where
  metadata : Option (ModuleEntry MetadataData)
  permissions : Option (ModuleEntry PermissionsData)
  code_behavior : Option CodeBehaviorResult
  network : Option (ModuleEntry NetworkData)
  cve : Option (ModuleEntry CVEData)
  ai : Option (ModuleEntry AIPayload)
deriving DecidableEq, Repr

/-- The analysis object consumed by `ReportDetail.jsx`. -/
structure AnalysisDetail where
  results : Option ResultsMap
  final_score : Option ℚ
  verdict : Option String
deriving DecidableEq, Repr

def emptyMetadataData : MetadataData := ⟨none, none⟩

def emptyPermissionsData : PermissionsData := ⟨none, none, none⟩

def emptyCodeBehaviorResult : CodeBehaviorResult := ⟨none⟩

def emptyNetworkData : NetworkData := ⟨none, none, none, none, none, none⟩

def emptyCVEData : CVEData := ⟨none, none⟩

def emptyAIPayload : AIPayload := ⟨none, none, none⟩

/-- Line 89: `analysis?.results?.metadata?.data ?? {}`. -/
def metadataOf (a : AnalysisDetail) : MetadataData :=
  ((a.results.bind (·.metadata)).bind (·.data)).getD emptyMetadataData

/-- Line 90: `analysis?.results?.permissions?.data ?? {}`. -/
def permissionsOf (a : AnalysisDetail) : PermissionsData :=
  ((a.results.bind (·.permissions)).bind (·.data)).getD emptyPermissionsData

/-- Line 91: `analysis?.results?.code_behavior ?? {}` (no `.data`). -/
def codeBehaviorOf (a : AnalysisDetail) : CodeBehaviorResult :=
  (a.results.bind (·.code_behavior)).getD emptyCodeBehaviorResult

/-- Line 92: `analysis?.results?.network?.data ?? {}`. -/
def networkOf (a : AnalysisDetail) : NetworkData :=
  ((a.results.bind (·.network)).bind (·.data)).getD emptyNetworkData

/-- Line 93: `analysis?.results?.cve?.data ?? {}`. -/
def cveOf (a : AnalysisDetail) : CVEData :=
  ((a.results.bind (·.cve)).bind (·.data)).getD emptyCVEData

/-- Line 94: `analysis?.results?.ai?.data ?? {}`. -/
def aiOf (a : AnalysisDetail) : AIPayload :=
  ((a.results.bind (·.ai)).bind (·.data)).getD emptyAIPayload

/-- Code tab: `codeBehavior.findings ?? []`. -/
def findingsDisplay (a : AnalysisDetail) : List Finding :=
  (codeBehaviorOf a).findings.getD []

/-- CVE tab: `cve.cves ?? []`. -/
def cvesDisplay (a : AnalysisDetail) : List CVEEntry :=
  (cveOf a).cves.getD []

/-- CVE tab: `cve.libraries_found ?? []`. -/
def librariesDisplay (a : AnalysisDetail) : List LibraryEntry :=
  (cveOf a).libraries_found.getD []

/-- Network tab: `network.domains ?? []`. -/
def domainsDisplay (a : AnalysisDetail) : List String :=
  (networkOf a).domains.getD []

/-- Permissions tab: `Object.entries(permissions.risk_distribution ?? {})`. -/
def riskDistributionDisplay (a : AnalysisDetail) : List (String × Nat) :=
  (permissionsOf a).risk_distribution.getD []

/-- AI tab scenario list for a whole analysis object. -/
def attackScenariosDisplay (a : AnalysisDetail) : List AttackScenario :=
  aiScenariosDisplay (aiOf a)

/-- AI tab recommendation list for a whole analysis object. -/
def recommendationsDisplay (a : AnalysisDetail) : List String :=
  aiRecommendationsDisplay (aiOf a)

/-! ### Job lifecycle — spec §4.8 (backend absent from src/) and
`ReportsList.jsx` -/

/-- The four lifecycle states of an analysis job. -/
inductive JobStatus
  | pending
  | in_progress
  | completed
  | failed
deriving DecidableEq, Repr

/-- The string a job status serializes to. -/
def statusName : JobStatus → String
  | .pending => "pending"
  | .in_progress => "in_progress"
  | .completed => "completed"
  | .failed => "failed"

/-- Constant `statusOptions` of `ReportsList.jsx`: the status filter values offered
by the UI (the empty value means no filter). -/
def statusOptions : List (String × String) :=
  [ ("", "Tous les statuts"),
    ("pending", "En attente"),
    ("in_progress", "En cours"),
    ("completed", "Terminé"),
    ("failed", "Échec") ]

/-- Modelled from the spec: the §4.8 orchestrator state machine
`pending → in_progress → {completed | failed}` — the orchestrator is not
part of the repository sources.  `stepAllowed s t` is true exactly when the
lifecycle admits a transition from `s` to `t`. -/
def stepAllowed : JobStatus → JobStatus → Bool
  | .pending, .in_progress => true
  | .in_progress, .completed => true
  | .in_progress, .failed => true
  | _, _ => false

/-- The score/verdict header of an `AnalysisReport` (§3). -/
structure ReportHeader where
  status : JobStatus
  final_score : Option ℚ
  verdict : Option Verdict
deriving DecidableEq, Repr

/-- Modelled from the spec: the Report Assembler populates `final_score`
and `verdict` only once the reducer finishes, i.e. only on a `completed`
job; a non-completed job carries null score and verdict — the assembler is
not part of the repository sources.  `score` is the reducer’s clamped
final score. -/
def assembleReport (s : JobStatus) (score : ℚ) : ReportHeader :=
  if s = .completed then ⟨s, some score, some (classifyVerdict score)⟩
  else ⟨s, none, none⟩

/-! ### Dashboard average — `Dashboard.jsx`, lines 37–46 -/

/-- JavaScript `Math.round`: round half toward positive infinity. -/
def jsRound (x : ℚ) : ℤ := ⌊x + 1/2⌋

/-- Value `recentCompleted` of `Dashboard.jsx`:
`analyses.filter((analysis) => analysis.status === "completed")`. -/
def recentCompleted (l : List AnalysisSummary) : List AnalysisSummary :=
  l.filter (fun a => a.status == "completed")

/-- Value `averageScore` of `Dashboard.jsx`: `0` when no completed analyses,
otherwise `Math.round((total / recentCompleted.length) * 10) / 10` where
`total` sums `analysis.final_score ?? 0`. -/
def averageScore (l : List AnalysisSummary) : ℚ :=
  let comp := recentCompleted l
  if comp.length = 0 then 0
  else
    let total := (comp.map (fun a => a.final_score.getD 0)).sum
    (jsRound (total / comp.length * 10) : ℚ) / 10

/-- The claim’s own description of the dashboard average, stated from its
words for comparison with `averageScore`: computed only over analyses whose
status is completed, a missing final_score treated as 0, equal to
`round(mean * 10) / 10`, and 0 when no completed analyses exist. -/
def claimAverageScore (l : List AnalysisSummary) : ℚ :=
  let comp := l.filter (fun a => a.status == "completed")
  if comp.isEmpty then 0
  else
    let mean := (comp.map (fun a => a.final_score.getD 0)).sum / comp.length
    (jsRound (mean * 10) : ℚ) / 10

/-! ### Local analyzers — spec §4.1–§4.4 (backend absent from src/) -/

/-- Store metadata of an `ExtensionBundle` (§3). -/
structure StoreMetadata where
  rating : ℚ
  installs : Nat
  verifiedPublisher : Bool
deriving DecidableEq, Repr

/-- Modelled from the spec: the §3 `ExtensionBundle` — manifest fields,
a mapping from relative file path to source content, store metadata when
present.  (Provenance is carried by `AnalysisMode`.) -/
structure ExtensionBundle where
  name : String
  version : String
  permissions : List String
  host_permissions : List String
  files : List (String × String)
  store : Option StoreMetadata
deriving DecidableEq, Repr

/-- Modelled from the spec: one entry of the §2 Pattern Rule Set —
(category, severity, predicate parameters), here a substring predicate. -/
structure PatternRule where
  message : String
  category : String
  severity : String
  pattern : String
deriving DecidableEq, Repr

/-- Modelled from the spec: the configuration the local analyzers consume —
the pattern rule set, the permission risk table, and the static tracker
list (all §4.1–§4.4 are pure functions of bundle and config). -/
structure AnalyzerConfig where
  rules : List PatternRule
  riskyPermissions : List String
  trackerDomains : List String
deriving DecidableEq, Repr

/-- Predicate `containsChars l p`: the pattern `p` occurs as a contiguous run in `l`. -/
def containsChars (l p : List Char) : Bool :=
  match l with
  | [] => p.isEmpty
  | _ :: t => startsWithChars l p || containsChars t p

/-- Substring test for the pattern predicates. -/
def containsPattern (content pat : String) : Bool :=
  containsChars content.toList pat.toList

/-- Modelled from the spec: §4.1 deduplication — duplicate (message, file)
pairs collapse to one Finding, keeping first occurrences in order. -/
def dedupFindings (fs : List Finding) : List Finding :=
  fs.foldl
    (fun acc f =>
      if acc.any (fun g => g.message == f.message && g.file == f.file) then acc
      else acc ++ [f])
    []

/-- Modelled from the spec: the §4.1 Code Behavior Analyzer’s findings —
every source file is scanned against every rule of the Pattern Rule Set;
a match yields one Finding; duplicates by (message, file) collapse. -/
def codeBehaviorFindings (cfg : AnalyzerConfig) (b : ExtensionBundle) :
    List Finding :=
  dedupFindings
    ((b.files.map (fun pc =>
        cfg.rules.filterMap (fun r =>
          if containsPattern pc.2 r.pattern then
            some ⟨r.message, r.category, pc.1, r.severity⟩
          else none))).flatten)

/-- Modelled from the spec: the §4.1 severity weights
(`critical`=10, `high`=6, `medium`=3, `low`=1). -/
def severityWeight : String → ℚ
  | "critical" => 10
  | "high" => 6
  | "medium" => 3
  | "low" => 1
  | _ => 0

/-- Modelled from the spec: the §4.1 sub-score — severity-weighted sum of
findings passed through a capped-linear saturating transform into [0,10]. -/
def codeBehaviorSubScore (cfg : AnalyzerConfig) (b : ExtensionBundle) : ℚ :=
  min 10 (((codeBehaviorFindings cfg b).map (fun f => severityWeight f.severity)).sum)

/-- Modelled from the spec: the §4.2 Metadata Analyzer’s named deltas —
a bonus for verified-publisher status, a malus for very low ratings and
for absent developer identity (no store metadata). -/
def metadataDeltas (b : ExtensionBundle) : List (String × ℚ) :=
  match b.store with
  | none => [("absent_developer_identity", -2)]
  | some st =>
      (if st.verifiedPublisher then [("verified_publisher", 2)] else []) ++
      (if st.rating < 2 then [("very_low_rating", -2)] else [])

/-- Modelled from the spec: the §4.2 sub-score — a bounded base score plus
the named deltas, clamped to [0,10]. -/
def metadataSubScore (b : ExtensionBundle) : ℚ :=
  min 10 (max 0 (5 + ((metadataDeltas b).map (·.2)).sum))

/-- Modelled from the spec: the §4.3 risk classification of one permission
against the static risk table; a broad host wildcard counts as high risk. -/
def permissionRisk (cfg : AnalyzerConfig) (perm : Bool × String) : String :=
  if perm.1 then
    if perm.2 = "<all_urls>" ∨ containsPattern perm.2 "*" then "high" else "low"
  else if cfg.riskyPermissions.contains perm.2 then "high" else "low"

/-- Modelled from the spec: the §4.3 risk distribution — count per risk
tier over all requested permissions and host-permission patterns (the
Boolean marks host permissions). -/
def riskDistribution (cfg : AnalyzerConfig) (b : ExtensionBundle) :
    List (String × Nat) :=
  let all := b.permissions.map (false, ·) ++ b.host_permissions.map (true, ·)
  [ ("high", (all.filter (fun p => permissionRisk cfg p == "high")).length),
    ("low", (all.filter (fun p => permissionRisk cfg p == "low")).length) ]

/-- Modelled from the spec: the §4.3 sub-score — increases with the
proportion of high-risk permissions (10 × high / total, 0 on an empty
permission set since rational division by zero is zero). -/
def permissionSubScore (cfg : AnalyzerConfig) (b : ExtensionBundle) : ℚ :=
  let all := b.permissions.map (false, ·) ++ b.host_permissions.map (true, ·)
  let high := (all.filter (fun p => permissionRisk cfg p == "high")).length
  10 * (high : ℚ) / (all.length : ℚ)

/-- URLs referenced by one source text: whitespace-separated tokens that
start with an `http://` or `https://` scheme. -/
def urlsOf (content : String) : List String :=
  (strSplitOn ' ' content).filter
    (fun t => strStartsWith t "http://" || strStartsWith t "https://")

/-- The registrable-domain part of a URL: what stands between the scheme
and the first slash. -/
def domainOf (url : String) : String :=
  let rest := if strStartsWith url "https://" then strDrop url 8 else strDrop url 7
  (strSplitOn '/' rest).headD ""

/-- Modelled from the spec: the §4.4 Network/Privacy Analyzer — extracts
the externally-referenced URLs from all source files, resolves each to a
domain, deduplicates, and counts unencrypted transport and tracker-list
hits. -/
def networkAnalysis (cfg : AnalyzerConfig) (b : ExtensionBundle) :
    NetworkData :=
  let urls := (b.files.map (fun pc => urlsOf pc.2)).flatten
  let doms := (urls.map domainOf).eraseDups
  { total_urls := some urls.length
    external_urls := some urls.length
    http_urls := some (urls.filter (fun u => strStartsWith u "http://")).length
    unique_domains := some doms.length
    tracking_domains := some (doms.filter (fun d => cfg.trackerDomains.contains d)).length
    domains := some doms }

/-- Modelled from the spec: the §4.4 sub-score — increases with the
unencrypted-transport ratio and the tracking-domain hits, capped into
[0,10]. -/
def networkSubScore (cfg : AnalyzerConfig) (b : ExtensionBundle) : ℚ :=
  let urls := (b.files.map (fun pc => urlsOf pc.2)).flatten
  let doms := (urls.map domainOf).eraseDups
  let httpCount := (urls.filter (fun u => strStartsWith u "http://")).length
  let tracking := (doms.filter (fun d => cfg.trackerDomains.contains d)).length
  min 10 (5 * (httpCount : ℚ) / (urls.length : ℚ) + 2 * (tracking : ℚ))

/-- Modelled from the spec: the combined output of the four
externally-independent analyzers (§4.1–§4.4) on one bundle under one
config — findings and sub-scores, a pure function of (bundle, config). -/
def localAnalysis (cfg : AnalyzerConfig) (b : ExtensionBundle) :
    (List Finding × ℚ) × (List (String × ℚ) × ℚ) ×
    (List (String × Nat) × ℚ) × (NetworkData × ℚ) :=
  ( (codeBehaviorFindings cfg b, codeBehaviorSubScore cfg b),
    (metadataDeltas b, metadataSubScore b),
    (riskDistribution cfg b, permissionSubScore cfg b),
    (networkAnalysis cfg b, networkSubScore cfg b) )

/-- One run of the local analyzers recorded as a relation: `AnalyzerRun
cfg b out` holds when `out` is an output the §4.1–§4.4 analyzers can
produce for bundle `b` under config `cfg`. -/
def AnalyzerRun (cfg : AnalyzerConfig) (b : ExtensionBundle)
    (out : (List Finding × ℚ) × (List (String × ℚ) × ℚ) ×
      (List (String × Nat) × ℚ) × (NetworkData × ℚ)) : Prop :=
  out = localAnalysis cfg b

/-- A concrete bundle exercising all four local analyzers. -/
def exampleBundle : ExtensionBundle :=
  { name := "demo-extension"
    version := "1.0.0"
    permissions := ["cookies", "storage"]
    host_permissions := ["<all_urls>"]
    files :=
      [("bg.js", "eval( https://tracker.example.com/x http://api.example.org/y")]
    store := none }

/-- A concrete analyzer configuration for `exampleBundle`. -/
def exampleConfig : AnalyzerConfig :=
  { rules := [⟨"Use of eval", "dangerous-api", "high", "eval("⟩]
    riskyPermissions := ["cookies", "history", "webRequest"]
    trackerDomains := ["tracker.example.com"] }

/-- A results map in which every module entry is present but carries no
`data` payload (and the code-behavior result carries no `findings`). -/
def datalessResults : ResultsMap :=
  ⟨some ⟨none⟩, some ⟨none⟩, some ⟨none⟩, some ⟨none⟩, some ⟨none⟩, some ⟨none⟩⟩

/-- A fully-populated results map carrying the given §3 payload fields:
`findings` under `code_behavior`, `cves` and `libraries_found` under
`cve.data`, `attack_scenarios`/`recommendations`/`summary` under `ai.data`,
`risk_distribution` under `permissions.data`, `domains` under
`network.data`. -/
def populatedResults (fs : List Finding) (cves : List CVEEntry)
    (libs : List LibraryEntry) (doms : List String)
    (rd : List (String × Nat)) (scen : List AttackScenario)
    (recs : List String) (summaryText : String) : ResultsMap :=
  { metadata := some ⟨some ⟨some "demo", some "1.0.0"⟩⟩
    permissions := some ⟨some ⟨none, none, some rd⟩⟩
    code_behavior := some ⟨some fs⟩
    network := some ⟨some ⟨none, none, none, none, none, some doms⟩⟩
    cve := some ⟨some ⟨some cves, some libs⟩⟩
    ai := some ⟨some ⟨some summaryText, some scen, some recs⟩⟩ }

/-! ## Helper lemmas -/

theorem list_sum_map_div (l : List ℚ) (S : ℚ) :
    (l.map (· / S)).sum = l.sum / S := by
  induction l with
  | nil => simp
  | cons a t ih => simp [ih, add_div]

/-! ## Claim theorems -/

/-- C1.  For every real-number score input, the gauge’s `normalized` value
lies in [0, 50] and the fill percentage equals `(normalized / 50) * 100`
and lies in [0, 100]; and the (spec-modelled) reducer’s final score is
always in [0, 50]. -/
theorem scoreGauge_normalized_bounds :
    (∀ score : ℚ,
      0 ≤ gaugeNormalized score ∧ gaugeNormalized score ≤ 50 ∧
      gaugePercentage score = gaugeNormalized score / 50 * 100 ∧
      0 ≤ gaugePercentage score ∧ gaugePercentage score ≤ 100) ∧
    (∀ (ms : List ModuleOutcome) (deltaSum : ℚ),
      0 ≤ finalScore ms deltaSum ∧ finalScore ms deltaSum ≤ 50) := by
  constructor
  · intro score
    have h0 : 0 ≤ gaugeNormalized score :=
      le_min (le_max_right score 0) (by norm_num)
    have h50 : gaugeNormalized score ≤ 50 := min_le_right _ _
    refine ⟨h0, h50, rfl, ?_, ?_⟩
    · have : (0 : ℚ) ≤ gaugeNormalized score / 50 := by positivity
      unfold gaugePercentage
      nlinarith
    · unfold gaugePercentage
      nlinarith
  · intro ms deltaSum
    exact ⟨le_min (le_max_right _ 0) (by norm_num), min_le_right _ _⟩

/-- C3.  After the §4.9 proportional redistribution, the effective weights
of the active modules sum to 1 whenever the active base weights have a
nonzero total (in particular for every configuration where the enabled
modules carry positive weight), regardless of which optional modules are
inactive. -/
theorem activeWeights_sum_one (ms : List ModuleOutcome)
    (h : activeWeightSum ms ≠ 0) : (activeWeights ms).sum = 1 := by
  have hmap : activeWeights ms =
      ((ms.filter (·.active)).map (·.weight)).map (· / activeWeightSum ms) := by
    simp [activeWeights, redistributedWeight, List.map_map, Function.comp]
  rw [hmap, list_sum_map_div]
  exact div_self h

/-- Witness for C3: a configuration with an inactive middle module whose
active redistributed weights sum to exactly 1. -/
theorem activeWeights_sum_one_witness :
    (activeWeights
      [⟨1/2, true, 3⟩, ⟨1/4, false, 5⟩, ⟨1/4, true, 2⟩]).sum = 1 :=
  activeWeights_sum_one _ (by norm_num [activeWeightSum])

/-- C2.  On the clamped range the verdict classification follows the fixed
non-overlapping threshold table ([0,11)→safe, [11,26)→needs_review,
[26,41)→high_risk, [41,50]→block — lower bounds inclusive, next tier’s
lower bound exclusive), every classified verdict is one of exactly the
four values, and the sample completed analyses (final_score 8.5 and 22.3)
carry exactly the verdicts this table assigns (safe, needs_review). -/
theorem classifyVerdict_threshold_table :
    (∀ s : ℚ, 0 ≤ s → s ≤ 50 →
      ((classifyVerdict s = .safe ↔ s < 11) ∧
       (classifyVerdict s = .needs_review ↔ 11 ≤ s ∧ s < 26) ∧
       (classifyVerdict s = .high_risk ↔ 26 ≤ s ∧ s < 41) ∧
       (classifyVerdict s = .block ↔ 41 ≤ s))) ∧
    (∀ s : ℚ, classifyVerdict s = .safe ∨ classifyVerdict s = .needs_review ∨
      classifyVerdict s = .high_risk ∨ classifyVerdict s = .block) ∧
    (∀ a ∈ sampleAnalyses, ∀ sc ∈ a.final_score, ∀ v ∈ a.verdict,
      v = verdictName (classifyVerdict sc)) := by
  refine ⟨?_, ?_, ?_⟩
  · intro s h0 h50
    by_cases h1 : s < 11
    · have hc : classifyVerdict s = .safe := by simp [classifyVerdict, h1]
      rw [hc]
      refine ⟨iff_of_true rfl h1, iff_of_false (by simp) ?_,
        iff_of_false (by simp) ?_, iff_of_false (by simp) ?_⟩
      · rintro ⟨hA, hB⟩; linarith
      · rintro ⟨hA, hB⟩; linarith
      · intro hA; linarith
    · by_cases h2 : s < 26
      · have hc : classifyVerdict s = .needs_review := by
          simp [classifyVerdict, h1, h2]
        rw [hc]
        refine ⟨iff_of_false (by simp) h1,
          iff_of_true rfl ⟨by linarith, h2⟩,
          iff_of_false (by simp) ?_, iff_of_false (by simp) ?_⟩
        · rintro ⟨hA, hB⟩; linarith
        · intro hA; linarith
      · by_cases h3 : s < 41
        · have hc : classifyVerdict s = .high_risk := by
            simp [classifyVerdict, h1, h2, h3]
          rw [hc]
          refine ⟨iff_of_false (by simp) h1, iff_of_false (by simp) ?_,
            iff_of_true rfl ⟨by linarith, h3⟩, iff_of_false (by simp) ?_⟩
          · rintro ⟨hA, hB⟩; linarith
          · intro hA; linarith
        · have hc : classifyVerdict s = .block := by
            simp [classifyVerdict, h1, h2, h3]
          rw [hc]
          refine ⟨iff_of_false (by simp) h1, iff_of_false (by simp) ?_,
            iff_of_false (by simp) ?_, iff_of_true rfl (by linarith)⟩
          · rintro ⟨hA, hB⟩; linarith
          · rintro ⟨hA, hB⟩; linarith
  · intro s
    simp only [classifyVerdict]
    split_ifs <;> simp
  · intro a ha sc hsc v hv
    fin_cases ha
    · simp only [Option.mem_def, Option.some.injEq] at hsc hv
      subst hsc; subst hv
      have hc : classifyVerdict ((17 : ℚ)/2) = .safe := by
        norm_num [classifyVerdict]
      rw [hc]; rfl
    · simp only [Option.mem_def, Option.some.injEq] at hsc hv
      subst hsc; subst hv
      have hc : classifyVerdict ((223 : ℚ)/10) = .needs_review := by
        norm_num [classifyVerdict]
      rw [hc]; rfl
    · simp at hsc

/-- Witness for C2: the first sample score 8.5 classifies as `safe`,
obtained from the threshold-table theorem at `s = 17/2`. -/
theorem classifyVerdict_threshold_table_witness :
    classifyVerdict (17/2 : ℚ) = .safe :=
  ((classifyVerdict_threshold_table.1 (17/2) (by norm_num) (by norm_num)).1).mpr
    (by norm_num)

/-- Sanity anchor: the modelled code-behavior analyzer detects exactly the
`eval(` rule match in `exampleBundle`, deduplicated to one finding. -/
theorem exampleBundle_findings_eval :
    codeBehaviorFindings exampleConfig exampleBundle =
      [⟨"Use of eval", "dangerous-api", "bg.js", "high"⟩] := by decide

/-- Sanity anchor: the modelled network analyzer resolves the two URLs of
`exampleBundle` to their deduplicated domains. -/
theorem exampleBundle_domains_eval :
    (networkAnalysis exampleConfig exampleBundle).domains =
      some ["tracker.example.com", "api.example.org"] := by decide

/-- C4.  The analyzers with no external dependency (§4.1–§4.4: code
behavior, metadata, permissions, network/privacy) are a deterministic
function of (bundle, config): any two runs over an identical bundle with
identical config produce identical findings and identical sub-scores. -/
theorem localAnalysis_deterministic (cfg : AnalyzerConfig)
    (b : ExtensionBundle) (out₁ out₂ :
      (List Finding × ℚ) × (List (String × ℚ) × ℚ) ×
      (List (String × Nat) × ℚ) × (NetworkData × ℚ))
    (h₁ : AnalyzerRun cfg b out₁) (h₂ : AnalyzerRun cfg b out₂) :
    out₁ = out₂ := by
  rw [h₁, h₂]

/-- Witness for C4: two runs over `exampleBundle` with `exampleConfig`
coincide. -/
theorem localAnalysis_deterministic_witness :
    localAnalysis exampleConfig exampleBundle =
      localAnalysis exampleConfig exampleBundle :=
  localAnalysis_deterministic exampleConfig exampleBundle _ _ rfl rfl

/-- C5.  When the AI backing service is unavailable (`none`) or returns
malformed output (`wellFormed = false`), the AI module ends `skipped` with
weight zero and the report message is "AI analysis unavailable" — the job
does not fail; and in the report view, an absent `summary` renders the
fixed unavailable message while absent `attack_scenarios` /
`recommendations` render as empty lists. -/
theorem aiModule_degrades_gracefully :
    (∀ (w : ℚ) (resp : Option AIServiceResponse),
      (resp = none ∨ ∃ r, resp = some r ∧ r.wellFormed = false) →
        aiModuleOutcome w resp =
          ⟨.skipped, 0, "AI analysis unavailable"⟩) ∧
    (∀ ai : AIPayload, ai.summary = none →
      aiSummaryDisplay ai = "Analyse IA non disponible.") ∧
    (∀ ai : AIPayload, ai.attack_scenarios = none → aiScenariosDisplay ai = []) ∧
    (∀ ai : AIPayload, ai.recommendations = none →
      aiRecommendationsDisplay ai = []) := by
  refine ⟨?_, ?_, ?_, ?_⟩
  · rintro w resp (rfl | ⟨r, rfl, hr⟩)
    · rfl
    · simp [aiModuleOutcome, hr]
  · intro ai h; simp [aiSummaryDisplay, h]
  · intro ai h; simp [aiScenariosDisplay, h]
  · intro ai h; simp [aiRecommendationsDisplay, h]

/-- Witness for C5: an unavailable service yields the skipped outcome with
weight zero, and the empty AI payload renders the fixed fallback texts. -/
theorem aiModule_degrades_gracefully_witness :
    aiModuleOutcome (1/10 : ℚ) none =
        ⟨.skipped, 0, "AI analysis unavailable"⟩ ∧
      aiSummaryDisplay emptyAIPayload = "Analyse IA non disponible." ∧
      aiScenariosDisplay emptyAIPayload = [] ∧
      aiRecommendationsDisplay emptyAIPayload = [] :=
  ⟨aiModule_degrades_gracefully.1 (1/10) none (Or.inl rfl),
   aiModule_degrades_gracefully.2.1 emptyAIPayload rfl,
   aiModule_degrades_gracefully.2.2.1 emptyAIPayload rfl,
   aiModule_degrades_gracefully.2.2.2 emptyAIPayload rfl⟩

/-- C6.  Submission offers exactly the three provenance modes; a
job-creation request is sent exactly when the mode’s required inputs are
present (a store URL for `url`/`combined`, a package file for
`file`/`combined`), otherwise an error message is recorded and no request
is made; and every request actually sent carries at least one of
{store URL, file}. -/
theorem handleSubmit_mode_inputs :
    (∀ m : AnalysisMode, m = .url ∨ m = .file ∨ m = .combined) ∧
    (∀ (mode : AnalysisMode) (url storeType : String) (file : Option String),
      ((∃ req, handleSubmit mode url storeType file = .ok req) ↔
        ((isStoreMode mode = true → url ≠ "") ∧
         (isFileMode mode = true → file ≠ none)))) ∧
    (∀ (mode : AnalysisMode) (url storeType : String) (file : Option String)
      (req : JobRequest), handleSubmit mode url storeType file = .ok req →
        (req.url ≠ none ∨ req.file ≠ none)) := by
  refine ⟨?_, ?_, ?_⟩
  · intro m; cases m
    · exact Or.inl rfl
    · exact Or.inr (Or.inl rfl)
    · exact Or.inr (Or.inr rfl)
  · intro mode url storeType file
    cases mode <;>
      simp [handleSubmit, isStoreMode, isFileMode, createAnalysisJob] <;>
      split_ifs <;> simp_all
  · intro mode url storeType file req hok
    cases mode <;>
      simp only [handleSubmit, isStoreMode, isFileMode] at hok <;>
      split_ifs at hok with h₁ h₂ <;>
      simp only [Except.ok.injEq] at hok <;>
      subst hok <;>
      simp_all [createAnalysisJob]

/-- Witness for C6: a combined-mode request with both inputs carries at
least one of {store URL, file}, and a url-mode submission with a URL and
no file is accepted. -/
theorem handleSubmit_mode_inputs_witness :
    ((createAnalysisJob .combined "https://store/x" (some "chrome")
        (some "pkg.crx")).url ≠ none ∨
     (createAnalysisJob .combined "https://store/x" (some "chrome")
        (some "pkg.crx")).file ≠ none) ∧
    (∃ req, handleSubmit .url "https://store/x" "chrome" none = .ok req) :=
  ⟨handleSubmit_mode_inputs.2.2 .combined "https://store/x" "chrome"
      (some "pkg.crx") _ rfl,
   (handleSubmit_mode_inputs.2.1 .url "https://store/x" "chrome" none).mpr
      (by decide)⟩

/-- C7.  The report view reads module payloads under exactly the §3 field
names — `findings` for code behavior, `cves` and `libraries_found` for
CVE, `attack_scenarios` and `recommendations` for AI, `risk_distribution`
for permissions, `domains` for network — every present field passes
through unchanged, and an absent field (missing results map, missing
module entry data, or missing field) renders as an empty list or the empty
state rather than an error. -/
theorem reportDetail_payload_fields :
    (∀ (fs : List Finding) (cves : List CVEEntry) (libs : List LibraryEntry)
      (doms : List String) (rd : List (String × Nat))
      (scen : List AttackScenario) (recs : List String)
      (summaryText : String) (fsc : Option ℚ) (v : Option String),
      findingsDisplay
          ⟨some (populatedResults fs cves libs doms rd scen recs summaryText),
            fsc, v⟩ = fs ∧
      cvesDisplay
          ⟨some (populatedResults fs cves libs doms rd scen recs summaryText),
            fsc, v⟩ = cves ∧
      librariesDisplay
          ⟨some (populatedResults fs cves libs doms rd scen recs summaryText),
            fsc, v⟩ = libs ∧
      domainsDisplay
          ⟨some (populatedResults fs cves libs doms rd scen recs summaryText),
            fsc, v⟩ = doms ∧
      riskDistributionDisplay
          ⟨some (populatedResults fs cves libs doms rd scen recs summaryText),
            fsc, v⟩ = rd ∧
      attackScenariosDisplay
          ⟨some (populatedResults fs cves libs doms rd scen recs summaryText),
            fsc, v⟩ = scen ∧
      recommendationsDisplay
          ⟨some (populatedResults fs cves libs doms rd scen recs summaryText),
            fsc, v⟩ = recs ∧
      aiSummaryDisplay
          (aiOf
            ⟨some (populatedResults fs cves libs doms rd scen recs summaryText),
              fsc, v⟩) = summaryText) ∧
    (∀ a : AnalysisDetail, a.results = none →
      findingsDisplay a = [] ∧ cvesDisplay a = [] ∧ librariesDisplay a = [] ∧
      domainsDisplay a = [] ∧ riskDistributionDisplay a = [] ∧
      attackScenariosDisplay a = [] ∧ recommendationsDisplay a = []) ∧
    (findingsDisplay ⟨some datalessResults, none, none⟩ = [] ∧
      cvesDisplay ⟨some datalessResults, none, none⟩ = [] ∧
      librariesDisplay ⟨some datalessResults, none, none⟩ = [] ∧
      domainsDisplay ⟨some datalessResults, none, none⟩ = [] ∧
      riskDistributionDisplay ⟨some datalessResults, none, none⟩ = [] ∧
      attackScenariosDisplay ⟨some datalessResults, none, none⟩ = [] ∧
      recommendationsDisplay ⟨some datalessResults, none, none⟩ = []) := by
  refine ⟨?_, ?_, ?_⟩
  · intro fs cves libs doms rd scen recs summaryText fsc v
    refine ⟨rfl, rfl, rfl, rfl, rfl, rfl, rfl, rfl⟩
  · intro a h
    simp [findingsDisplay, cvesDisplay, librariesDisplay, domainsDisplay,
      riskDistributionDisplay, attackScenariosDisplay, recommendationsDisplay,
      codeBehaviorOf, cveOf, networkOf, permissionsOf, aiOf,
      aiScenariosDisplay, aiRecommendationsDisplay,
      emptyCodeBehaviorResult, emptyCVEData, emptyNetworkData,
      emptyPermissionsData, emptyAIPayload, h]
  · refine ⟨rfl, rfl, rfl, rfl, rfl, rfl, rfl⟩

/-- Witness for C7: the empty analysis object (no results map) renders
every §3 payload list as empty. -/
theorem reportDetail_payload_fields_witness :
    findingsDisplay ⟨none, none, none⟩ = [] ∧
      cvesDisplay ⟨none, none, none⟩ = [] ∧
      librariesDisplay ⟨none, none, none⟩ = [] ∧
      domainsDisplay ⟨none, none, none⟩ = [] ∧
      riskDistributionDisplay ⟨none, none, none⟩ = [] ∧
      attackScenariosDisplay ⟨none, none, none⟩ = [] ∧
      recommendationsDisplay ⟨none, none, none⟩ = [] :=
  reportDetail_payload_fields.2.1 ⟨none, none, none⟩ rfl

/-- C8.  Job status ranges over exactly the four lifecycle states; the
(spec-modelled) orchestrator admits exactly the transitions
`pending → in_progress → {completed | failed}`; an assembled report
carries a populated final_score and verdict exactly on completed jobs and
null score and verdict otherwise; the UI status filter offers exactly
these four states; and the non-completed sample analysis carries null
score and verdict. -/
theorem jobStatus_lifecycle :
    (∀ s : JobStatus, s = .pending ∨ s = .in_progress ∨
      s = .completed ∨ s = .failed) ∧
    (∀ s t : JobStatus, stepAllowed s t = true ↔
      ((s = .pending ∧ t = .in_progress) ∨
       (s = .in_progress ∧ (t = .completed ∨ t = .failed)))) ∧
    (∀ (s : JobStatus) (score : ℚ), s ≠ .completed →
      (assembleReport s score).final_score = none ∧
      (assembleReport s score).verdict = none) ∧
    (∀ (s : JobStatus) (score : ℚ),
      (assembleReport s score).status = s ∧
      (s = .completed →
        (assembleReport s score).final_score = some score ∧
        (assembleReport s score).verdict = some (classifyVerdict score))) ∧
    (statusOptions.map (·.1) =
      ["", statusName .pending, statusName .in_progress,
        statusName .completed, statusName .failed]) ∧
    (∀ a ∈ sampleAnalyses, a.status ≠ statusName .completed →
      a.final_score = none ∧ a.verdict = none) := by
  refine ⟨?_, ?_, ?_, ?_, rfl, ?_⟩
  · intro s; cases s <;> simp
  · intro s t; cases s <;> cases t <;> simp [stepAllowed]
  · intro s score h; simp [assembleReport, h]
  · intro s score
    constructor
    · simp only [assembleReport]; split_ifs <;> rfl
    · intro h; subst h; simp [assembleReport]
  · intro a ha h
    fin_cases ha <;> simp_all [statusName]

/-- Witness for C8: the lifecycle admits `pending → in_progress`, and a
pending job’s report carries null score and verdict. -/
theorem jobStatus_lifecycle_witness :
    stepAllowed .pending .in_progress = true ∧
      (assembleReport .pending 0).final_score = none ∧
      (assembleReport .pending 0).verdict = none :=
  ⟨(jobStatus_lifecycle.2.1 .pending .in_progress).mpr (Or.inl ⟨rfl, rfl⟩),
   (jobStatus_lifecycle.2.2.1 .pending 0 (by decide)).1,
   (jobStatus_lifecycle.2.2.1 .pending 0 (by decide)).2⟩

/-- Counterexample for C9.  The string "constructor" lies outside the four
known verdicts (and is unchanged by lower-casing), yet `getVerdictMeta`
does not fall back to the safe metadata for it: the property read hits the
inherited `Object.prototype.constructor` through the prototype chain, the
`??` fallback never fires, and the rendered label is `undefined`, not
"SAFE".  The claim as stated is therefore false at this input. -/
theorem getVerdictMeta_prototype_counterexample :
    ("constructor" ≠ "safe" ∧ "constructor" ≠ "needs_review" ∧
      "constructor" ≠ "high_risk" ∧ "constructor" ≠ "block") ∧
    getVerdictMeta (some "constructor") ≠ .meta safeMeta ∧
    formatVerdictLabel (some "constructor") ≠ some "SAFE" ∧
    getVerdictMeta (some "constructor") = .inheritedObject ∧
    formatVerdictLabel (some "constructor") = none := by decide

/-- C9 (amended).  `getVerdictMeta` is total — for every input, including
null/undefined and strings outside the four known verdicts, it returns a
defined value without throwing, matching case-insensitively — and every
unknown or missing verdict falls back to the safe metadata and renders the
SAFE label, except the strings whose lower-casing is an inherited
`Object.prototype` key (`constructor`, `__proto__`): for those the lookup
returns the inherited truthy object instead, whose label is undefined. -/
theorem getVerdictMeta_total_amended :
    (∀ v : Option String,
      getVerdictMeta v = .meta safeMeta ∨
      getVerdictMeta v = .meta needsReviewMeta ∨
      getVerdictMeta v = .meta highRiskMeta ∨
      getVerdictMeta v = .meta blockMeta ∨
      getVerdictMeta v = .inheritedObject) ∧
    (∀ s : String, s ≠ "" →
      jsToLower s ≠ "safe" → jsToLower s ≠ "needs_review" →
      jsToLower s ≠ "high_risk" → jsToLower s ≠ "block" →
      jsToLower s ≠ "constructor" → jsToLower s ≠ "__proto__" →
      getVerdictMeta (some s) = .meta safeMeta) ∧
    getVerdictMeta none = .meta safeMeta ∧
    getVerdictMeta (some "") = .meta safeMeta ∧
    getVerdictMeta (some "unknown-verdict") = .meta safeMeta ∧
    getVerdictMeta (some "SAFE") = .meta safeMeta ∧
    getVerdictMeta (some "Block") = .meta blockMeta ∧
    getVerdictMeta (some "NEEDS_REVIEW") = .meta needsReviewMeta ∧
    getVerdictMeta (some "high_risk") = .meta highRiskMeta ∧
    getVerdictMeta (some "constructor") = .inheritedObject ∧
    getVerdictMeta (some "__proto__") = .inheritedObject ∧
    formatVerdictLabel none = some "SAFE" ∧
    formatVerdictLabel (some "mystery") = some "SAFE" ∧
    formatVerdictLabel (some "constructor") = none := by
  refine ⟨?_, ?_, rfl, by decide, by decide, by decide, by decide, by decide,
    by decide, by decide, by decide, rfl, by decide, by decide⟩
  · intro v
    match v with
    | none => exact Or.inl rfl
    | some s =>
        by_cases h0 : s = ""
        · simp [getVerdictMeta, h0]
        · simp only [getVerdictMeta, h0, if_false]
          cases h : VERDICT_META (jsToLower s) with
          | own m =>
              unfold VERDICT_META at h
              split_ifs at h <;> simp_all
          | inherited => simp
          | undefinedRead => simp
  · intro s h0 h1 h2 h3 h4 h5 h6
    simp [getVerdictMeta, h0, VERDICT_META, h1, h2, h3, h4, h5, h6]

/-- Witness for C9 (amended): the unknown string "mystery" (not an
inherited prototype key) falls back to the safe metadata, via the amended
theorem with every hypothesis discharged concretely. -/
theorem getVerdictMeta_total_amended_witness :
    getVerdictMeta (some "mystery") = .meta safeMeta :=
  getVerdictMeta_total_amended.2.1 "mystery" (by decide) (by decide)
    (by decide) (by decide) (by decide) (by decide) (by decide)

/-- C10.  The dashboard average equals, for every list of analyses, the
value computed only over completed analyses with missing final_score as 0,
rounded to one decimal (`round(mean * 10) / 10`), and 0 when no completed
analyses exist; on the sample data (8.5 and 22.3 completed) it is 15.4. -/
theorem averageScore_matches_claim :
    (∀ l : List AnalysisSummary, averageScore l = claimAverageScore l) ∧
    averageScore [] = 0 ∧
    averageScore sampleAnalyses = 77/5 ∧
    averageScore [⟨"x", "in_progress", some 40, none⟩] = 0 ∧
    averageScore [⟨"y", "completed", none, none⟩] = 0 := by
  have hfilter : recentCompleted sampleAnalyses =
      [⟨"mock-safe", "completed", some (17/2 : ℚ), some "safe"⟩,
       ⟨"mock-review", "completed", some (223/10 : ℚ), some "needs_review"⟩] :=
    rfl
  refine ⟨?_, rfl, ?_, rfl, ?_⟩
  · intro l
    cases h : l.filter (fun a => a.status == "completed") with
    | nil => simp [averageScore, claimAverageScore, recentCompleted, h]
    | cons a t => simp [averageScore, claimAverageScore, recentCompleted, h]
  · rw [averageScore, hfilter]
    norm_num [jsRound]
  · have h1 : recentCompleted [(⟨"y", "completed", none, none⟩ : AnalysisSummary)] =
        [⟨"y", "completed", none, none⟩] := rfl
    rw [averageScore, h1]
    norm_num [jsRound]

end Checkme
